import Mathlib

/-!
# Verification of the Toy/Owner/Animal persistence example

Shallow embedding of the repository's persistence layer:

* `src/src/models/models.py` — `BaseEntity`, `Toy`, `Owner`, `Animal`;
* `src/src/constants/database_constants.py` — table names;
* `src/src/sqlalchemy_repository.py` — `SQLAlchemyRepository` (`add`,
  `get_by_id`, `update`, `delete`);
* `src/src/services/database_manager.py` — `DatabaseManager.session_scope`;
* `src/main.py` — the manager-class iteration's `Repository.update_entity`
  and the (identical) `session_scope`.

A SQLAlchemy session is modelled as a committed store (`db`), a list of
pending (flushed-but-uncommitted) row operations, and a counter of
`close()` calls.  `commit` applies the pending operations atomically:
if any violates the primary-key uniqueness constraint the whole batch is
rejected with a `SQLAlchemyError` (SQLAlchemy rolls the failed flush
back) and the store is unchanged.  Every repository operation commits
immediately, so pending is empty between operations in every program
flow.  Foreign keys are not modelled: the program connects to SQLite
with default settings, under which foreign-key enforcement is off.
Nullable columns are modelled as always-present values; no behaviour in
the repository depends on NULLs.
-/

set_option autoImplicit false

/-- Python exception values that the embedded code can raise.
`storageError` is modelled from the spec (§7): the spec's `StorageError`
wrapping an underlying cause; no such class exists anywhere in `src/`. -/
inductive PyError where
  | sqlAlchemyError (msg : String)
  | attributeError (msg : String)
  | storageError (cause : PyError)
deriving Repr, DecidableEq

/-- `except SQLAlchemyError` in `session_scope` catches exactly this kind. -/
def PyError.isSQLAlchemyError : PyError → Bool
  | .sqlAlchemyError _ => true
  | _ => false

/-- Whether an optional raised error is the spec's `StorageError`. -/
def isStorageErrorOpt : Option PyError → Bool
  | some (.storageError _) => true
  | _ => false

/-- `str(e)` as used by the rollback diagnostic print. -/
def PyError.message : PyError → String
  | .sqlAlchemyError m => m
  | .attributeError m => m
  | .storageError c => c.message

/-- Values assignable to model attributes (String and Integer columns). -/
inductive PyValue where
  | vstr (s : String)
  | vint (n : Int)
deriving Repr, DecidableEq

/-- `Toy` (models.py): columns `id` (String, primary key), `name` (String),
`toy_type` (String).  Subclasses only the declarative `Base`. -/
structure Toy where
  id : String
  name : String
  toy_type : String
deriving Repr, DecidableEq

/-- `Owner` (models.py): columns `id` (String, primary key), `name`
(String), `contact_info` (String). -/
structure Owner where
  id : String
  name : String
  contact_info : String
deriving Repr, DecidableEq

/-- `Animal` (models.py): columns `id` (String, primary key), `name`
(String), `age` (Integer), `favorite_toy_id`, `owner_id` (String FKs). -/
structure Animal where
  id : String
  name : String
  age : Int
  favorite_toy_id : String
  owner_id : String
deriving Repr, DecidableEq

/-- The column names declared in the `Toy` class body (models.py).
There is no timestamp column of any kind. -/
def Toy.columns : List String := ["id", "name", "toy_type"]

/-- Python `setattr(toy, key, value)` restricted to `Toy`'s declared
columns.  Assigning a key that is not a declared column sets a plain
instance attribute that is never persisted, hence is identity on the
persisted row; a value of the wrong kind is likewise stored untouched by
SQLite's dynamic typing and never read back by this program, so it is
modelled as identity.  Note there is no guard on `key = "id"`:
the SQLAlchemy models do not inherit `BaseEntity`, so nothing rejects
assignment to `id`. -/
def Toy.setattr (t : Toy) (key : String) (v : PyValue) : Toy :=
  if key = "id" then
    match v with | .vstr s => { t with id := s } | _ => t
  else if key = "name" then
    match v with | .vstr s => { t with name := s } | _ => t
  else if key = "toy_type" then
    match v with | .vstr s => { t with toy_type := s } | _ => t
  else t

/-- Python `setattr(owner, key, value)` on `Owner`'s declared columns. -/
def Owner.setattr (o : Owner) (key : String) (v : PyValue) : Owner :=
  if key = "id" then
    match v with | .vstr s => { o with id := s } | _ => o
  else if key = "name" then
    match v with | .vstr s => { o with name := s } | _ => o
  else if key = "contact_info" then
    match v with | .vstr s => { o with contact_info := s } | _ => o
  else o

/-- Python `setattr(animal, key, value)` on `Animal`'s declared columns. -/
def Animal.setattr (a : Animal) (key : String) (v : PyValue) : Animal :=
  if key = "id" then
    match v with | .vstr s => { a with id := s } | _ => a
  else if key = "name" then
    match v with | .vstr s => { a with name := s } | _ => a
  else if key = "age" then
    match v with | .vint n => { a with age := n } | _ => a
  else if key = "favorite_toy_id" then
    match v with | .vstr s => { a with favorite_toy_id := s } | _ => a
  else if key = "owner_id" then
    match v with | .vstr s => { a with owner_id := s } | _ => a
  else a

/-- The `entity_class` argument of `get_by_id`/`update`/`delete`: one of
the three mapped classes. -/
inductive EntityClass where
  | toy
  | owner
  | animal
deriving Repr, DecidableEq

/-- Table names from `DATABASE_TABLES` (database_constants.py). -/
def EntityClass.tableName : EntityClass → String
  | .toy => "toys"
  | .owner => "owners"
  | .animal => "animals"

/-- Class names from `CLASSES` (database_constants.py). -/
def EntityClass.className : EntityClass → String
  | .toy => "Toy"
  | .owner => "Owner"
  | .animal => "Animal"

/-- A row of any of the three mapped classes. -/
inductive Entity where
  | toy (t : Toy)
  | owner (o : Owner)
  | animal (a : Animal)
deriving Repr, DecidableEq

def Entity.cls : Entity → EntityClass
  | .toy _ => .toy
  | .owner _ => .owner
  | .animal _ => .animal

def Entity.id : Entity → String
  | .toy t => t.id
  | .owner o => o.id
  | .animal a => a.id

/-- Python `setattr(entity, key, value)`, dispatched on the entity's
class. -/
def Entity.setattr : Entity → String → PyValue → Entity
  | .toy t, k, v => .toy (t.setattr k v)
  | .owner o, k, v => .owner (o.setattr k v)
  | .animal a, k, v => .animal (a.setattr k v)

/-- Python attribute read `getattr(toy, f)` on `Toy`'s declared columns
(models.py lines 30-35): the stored value of the named column, or
`none` when no such column is declared (in particular there is no
timestamp column of any name). -/
def Toy.getattr (t : Toy) (f : String) : Option PyValue :=
  if f = "id" then some (PyValue.vstr t.id)
  else if f = "name" then some (PyValue.vstr t.name)
  else if f = "toy_type" then some (PyValue.vstr t.toy_type)
  else none

/-- Python attribute read on `Owner`'s declared columns. -/
def Owner.getattr (o : Owner) (f : String) : Option PyValue :=
  if f = "id" then some (PyValue.vstr o.id)
  else if f = "name" then some (PyValue.vstr o.name)
  else if f = "contact_info" then some (PyValue.vstr o.contact_info)
  else none

/-- Python attribute read on `Animal`'s declared columns. -/
def Animal.getattr (a : Animal) (f : String) : Option PyValue :=
  if f = "id" then some (PyValue.vstr a.id)
  else if f = "name" then some (PyValue.vstr a.name)
  else if f = "age" then some (PyValue.vint a.age)
  else if f = "favorite_toy_id" then some (PyValue.vstr a.favorite_toy_id)
  else if f = "owner_id" then some (PyValue.vstr a.owner_id)
  else none

/-- Attribute read dispatched on the entity's class. -/
def Entity.getattr : Entity → String → Option PyValue
  | .toy t, f => t.getattr f
  | .owner o, f => o.getattr f
  | .animal a, f => a.getattr f

/-- Whether two values are of the same column kind (both String column
values or both Integer column values). -/
def PyValue.sameKind : PyValue → PyValue → Bool
  | .vstr _, .vstr _ => true
  | .vint _, .vint _ => true
  | _, _ => false

/-- A flushed-but-uncommitted row operation held by the session. -/
inductive PendingOp where
  | addRow (e : Entity)
  | deleteRow (c : EntityClass) (i : String)
  | updateRow (c : EntityClass) (i : String) (e2 : Entity)
deriving Repr, DecidableEq

/-- SQLAlchemy session state: committed store, pending row operations,
and the number of `close()` calls made on this session. -/
structure SessionState where
  db : List Entity
  pending : List PendingOp
  closeCount : Nat
deriving Repr, DecidableEq

/-- `session.query(entity_class).filter_by(id=entity_id).first()`:
first committed row of the class with the given id, or `None`. -/
def queryFirst (c : EntityClass) (i : String) : List Entity → Option Entity
  | [] => none
  | e :: rest => if e.cls = c ∧ e.id = i then some e else queryFirst c i rest

/-- Apply one pending row operation to the committed store.  An insert
whose primary key already exists in its table, or an update that moves a
row onto an existing primary key, violates the uniqueness constraint and
raises (SQLAlchemy surfaces it as an `IntegrityError`, a subclass of
`SQLAlchemyError`). -/
def applyPendingOp (db : List Entity) : PendingOp → Except PyError (List Entity)
  | .addRow e =>
    match queryFirst e.cls e.id db with
    | some _ => .error (.sqlAlchemyError ("UNIQUE constraint failed: " ++ e.cls.tableName ++ ".id"))
    | none => .ok (db ++ [e])
  | .deleteRow c i => .ok (db.filter (fun r => !(decide (r.cls = c ∧ r.id = i))))
  | .updateRow c i e2 =>
    if (e2.cls = c ∧ e2.id = i) then
      .ok (db.map (fun r => if r.cls = c ∧ r.id = i then e2 else r))
    else
      match queryFirst e2.cls e2.id db with
      | some _ => .error (.sqlAlchemyError ("UNIQUE constraint failed: " ++ e2.cls.tableName ++ ".id"))
      | none => .ok (db.map (fun r => if r.cls = c ∧ r.id = i then e2 else r))

/-- Apply a batch of pending operations left to right; any failure
aborts the batch. -/
def applyPendingAll : List PendingOp → List Entity → Except PyError (List Entity)
  | [], db => .ok db
  | p :: ps, db =>
    match applyPendingOp db p with
    | .ok db2 => applyPendingAll ps db2
    | .error e => .error e

/-- `session.commit()`: flush the pending operations atomically.  On
success the store holds the result and pending is empty.  On a
constraint violation the transaction is rolled back: the store is
unchanged, the pending changes are discarded, and the error is raised. -/
def sessionCommit (s : SessionState) : SessionState × Option PyError :=
  match applyPendingAll s.pending s.db with
  | .ok db2 => ({ s with db := db2, pending := [] }, none)
  | .error e => ({ s with pending := [] }, some e)

/-- `session.rollback()`: discard pending changes. -/
def sessionRollback (s : SessionState) : SessionState :=
  { s with pending := [] }

/-- `session.close()`: release the session (counted, to state the
exactly-once release property). -/
def sessionClose (s : SessionState) : SessionState :=
  { s with closeCount := s.closeCount + 1 }

/-- `session = self.Session()`: a fresh session over the store. -/
def initSession (db0 : List Entity) : SessionState :=
  { db := db0, pending := [], closeCount := 0 }

/-- Result of one repository operation: the session state, the lines it
printed, and the exception it raised, if any. -/
structure OpOut where
  state : SessionState
  logs : List String
  err : Option PyError
deriving Repr, DecidableEq

/-- `SQLAlchemyRepository.add` (sqlalchemy_repository.py lines 8-10):
`self.session.add(entity)` then `self.session.commit()`.  The commit is
made at the time of the call, so a successful add is immediately
durable in the store. -/
def SQLAlchemyRepository.add (s : SessionState) (e : Entity) : OpOut :=
  let s1 := { s with pending := s.pending ++ [PendingOp.addRow e] }
  let r := sessionCommit s1
  { state := r.1, logs := [], err := r.2 }

/-- `SQLAlchemyRepository.get_by_id` (sqlalchemy_repository.py lines
12-13): a pure query returning the row or `None`.  Its result type is
total: absence yields `none`, never an exception. -/
def SQLAlchemyRepository.get_by_id (s : SessionState) (c : EntityClass) (i : String) : Option Entity :=
  queryFirst c i s.db

/-- `SQLAlchemyRepository.update` (sqlalchemy_repository.py lines
15-20): loads by id; if absent it does nothing at all — no print, no
raise; if present it applies `setattr` for each keyword argument and
commits.  It never references any timestamp. -/
def SQLAlchemyRepository.update (s : SessionState) (c : EntityClass) (i : String)
    (kwargs : List (String × PyValue)) : OpOut :=
  match SQLAlchemyRepository.get_by_id s c i with
  | none => { state := s, logs := [], err := none }
  | some e =>
    let e2 := kwargs.foldl (fun acc kv => acc.setattr kv.1 kv.2) e
    let r := sessionCommit { s with pending := s.pending ++ [PendingOp.updateRow c i e2] }
    { state := r.1, logs := [], err := r.2 }

/-- `SQLAlchemyRepository.delete` (sqlalchemy_repository.py lines
22-26): loads by id; if absent it silently does nothing; if present it
marks the row deleted and commits. -/
def SQLAlchemyRepository.delete (s : SessionState) (c : EntityClass) (i : String) : OpOut :=
  match SQLAlchemyRepository.get_by_id s c i with
  | none => { state := s, logs := [], err := none }
  | some _ =>
    let r := sessionCommit { s with pending := s.pending ++ [PendingOp.deleteRow c i] }
    { state := r.1, logs := [], err := r.2 }

/-- `BaseEntity` (models.py lines 9-27): `_id` plus a timestamps dict
with `created_at` and `updated_at` (run-time clock readings, modelled as
naturals).  The SQLAlchemy models `Toy`, `Owner`, `Animal` do NOT
inherit from this class. -/
structure BaseEntity where
  _id : String
  created_at : Nat
  updated_at : Nat
deriving Repr, DecidableEq

/-- The `id` property getter of `BaseEntity`. -/
def BaseEntity.id (b : BaseEntity) : String := b._id

/-- `BaseEntity.update_timestamp` (models.py lines 26-27). -/
def BaseEntity.update_timestamp (b : BaseEntity) (now : Nat) : BaseEntity :=
  { b with updated_at := now }

/-- Attribute lookup of `update_timestamp` on a mapped model instance.
In main.py the classes `Toy` (lines 66-71), `Owner`, `Animal` subclass
only the declarative `Base` and define no `update_timestamp` method (and
do not inherit `BaseEntity`), so Python attribute lookup fails and the
call raises `AttributeError`. -/
def Entity.call_update_timestamp (e : Entity) : Except PyError Entity :=
  .error (.attributeError
    ("'" ++ e.cls.className ++ "' object has no attribute 'update_timestamp'"))

/-- `Repository.update_entity` (main.py lines 129-138), the
manager-class iteration: loads by id; if absent it prints a not-found
line; if present it applies each keyword argument with `setattr` (a
pending, uncommitted mutation of the session-attached row), then calls
`entity.update_timestamp()` — which raises `AttributeError` since the
mapped models define no such method — so `self.session.commit()` on the
next line is never reached and the committed store is unchanged. -/
def Repository.update_entity (s : SessionState) (c : EntityClass) (i : String)
    (kwargs : List (String × PyValue)) : OpOut :=
  match SQLAlchemyRepository.get_by_id s c i with
  | none => { state := s, logs := ["Entity with id " ++ i ++ " not found."], err := none }
  | some e =>
    let e2 := kwargs.foldl (fun acc kv => acc.setattr kv.1 kv.2) e
    let s1 := { s with pending := s.pending ++ [PendingOp.updateRow c i e2] }
    match e2.call_update_timestamp with
    | .error err => { state := s1, logs := [], err := some err }
    | .ok e3 =>
      let r := sessionCommit { s with pending := s.pending ++ [PendingOp.updateRow c i e3] }
      { state := r.1, logs := [], err := r.2 }

/-- One operation of the program against the active session: the four
`SQLAlchemyRepository` methods, plus the manager-class iteration's
`Repository.update_entity`. -/
inductive RepoOp where
  | add (e : Entity)
  | getById (c : EntityClass) (i : String)
  | update (c : EntityClass) (i : String) (kwargs : List (String × PyValue))
  | delete (c : EntityClass) (i : String)
  | updateEntity (c : EntityClass) (i : String) (kwargs : List (String × PyValue))
deriving Repr, DecidableEq

/-- Run one operation on the session. -/
def stepOp (s : SessionState) : RepoOp → OpOut
  | .add e => SQLAlchemyRepository.add s e
  | .getById _ _ => { state := s, logs := [], err := none }
  | .update c i kwargs => SQLAlchemyRepository.update s c i kwargs
  | .delete c i => SQLAlchemyRepository.delete s c i
  | .updateEntity c i kwargs => Repository.update_entity s c i kwargs

/-- Run a sequence of operations, stopping at the first raised
exception, as Python exception propagation does. -/
def runOps : List RepoOp → SessionState → OpOut
  | [], s => { state := s, logs := [], err := none }
  | op :: rest, s =>
    let r := stepOp s op
    match r.err with
    | some e => { state := r.state, logs := r.logs, err := some e }
    | none =>
      let r2 := runOps rest r.state
      { state := r2.state, logs := r.logs ++ r2.logs, err := r2.err }

/-- Outcome of one `with db_manager.session_scope() as session:` block. -/
structure ScopeOutcome where
  state : SessionState
  logs : List String
  err : Option PyError
  rolledBack : Bool
deriving Repr, DecidableEq

/-- `DatabaseManager.session_scope` (database_manager.py lines 15-26;
the copy in main.py lines 100-112 is line-for-line the same logic)
around a body of repository operations:

* open a fresh session and run the body;
* on normal completion, `session.commit()`;
* `except SQLAlchemyError`: `session.rollback()`, print the diagnostic,
  and `raise` — re-raising the ORIGINAL exception object, unwrapped;
* an exception that is not a `SQLAlchemyError` is not caught: no
  explicit rollback runs and the exception propagates as-is;
* `finally: session.close()` on every path. -/
def session_scope (db0 : List Entity) (ops : List RepoOp) : ScopeOutcome :=
  let r := runOps ops (initSession db0)
  match r.err with
  | none =>
    let c := sessionCommit r.state
    match c.2 with
    | none => { state := sessionClose c.1, logs := r.logs, err := none, rolledBack := false }
    | some e =>
      { state := sessionClose (sessionRollback c.1)
        logs := r.logs ++ ["Session rollback because of error: " ++ e.message]
        err := some e, rolledBack := true }
  | some e =>
    if e.isSQLAlchemyError then
      { state := sessionClose (sessionRollback r.state)
        logs := r.logs ++ ["Session rollback because of error: " ++ e.message]
        err := some e, rolledBack := true }
    else
      { state := sessionClose r.state, logs := r.logs, err := some e, rolledBack := false }

/-! ## Basic lemmas about queries and commits -/

theorem queryFirst_eq_none_iff (c : EntityClass) (i : String) (db : List Entity) :
    queryFirst c i db = none ↔ ∀ e ∈ db, ¬(e.cls = c ∧ e.id = i) := by
  induction db with
  | nil => simp [queryFirst]
  | cons e rest ih =>
    simp only [queryFirst, List.mem_cons]
    by_cases h : e.cls = c ∧ e.id = i
    · rw [if_pos h]
      constructor
      · intro hc; exact Option.noConfusion hc
      · intro hall; exact absurd h (hall e (Or.inl rfl))
    · rw [if_neg h, ih]
      constructor
      · intro hall x hx
        cases hx with
        | inl hx => rw [hx]; exact h
        | inr hx => exact hall x hx
      · intro hall x hx; exact hall x (Or.inr hx)

theorem queryFirst_some_facts {c : EntityClass} {i : String} {db : List Entity} {e : Entity}
    (h : queryFirst c i db = some e) : e.cls = c ∧ e.id = i ∧ e ∈ db := by
  induction db with
  | nil => exact Option.noConfusion h
  | cons x rest ih =>
    simp only [queryFirst] at h
    by_cases hx : x.cls = c ∧ x.id = i
    · rw [if_pos hx] at h
      injection h with h
      subst h
      exact ⟨hx.1, hx.2, List.mem_cons_self x rest⟩
    · rw [if_neg hx] at h
      obtain ⟨h1, h2, h3⟩ := ih h
      exact ⟨h1, h2, List.mem_cons_of_mem x h3⟩

theorem queryFirst_append_singleton {c : EntityClass} {i : String} {db : List Entity}
    (h : queryFirst c i db = none) {e : Entity} (hc : e.cls = c) (hi : e.id = i) :
    queryFirst c i (db ++ [e]) = some e := by
  induction db with
  | nil => simp [queryFirst, hc, hi]
  | cons x rest ih =>
    simp only [queryFirst] at h ⊢
    by_cases hx : x.cls = c ∧ x.id = i
    · rw [if_pos hx] at h; exact Option.noConfusion h
    · rw [if_neg hx] at h ⊢; exact ih h

theorem queryFirst_filter_not (c : EntityClass) (i : String) (db : List Entity) :
    queryFirst c i (db.filter (fun r => !(decide (r.cls = c ∧ r.id = i)))) = none := by
  induction db with
  | nil => simp [queryFirst]
  | cons x rest ih =>
    by_cases hx : x.cls = c ∧ x.id = i
    · simp only [List.filter_cons, decide_eq_true hx, Bool.not_true, ite_false]
      exact ih
    · simp only [List.filter_cons, decide_eq_false hx, Bool.not_false, ite_true, queryFirst]
      rw [if_neg hx]
      exact ih

theorem queryFirst_map_update {c : EntityClass} {i : String} {db : List Entity} {e : Entity}
    (h : queryFirst c i db = some e) (e2 : Entity) (hc : e2.cls = c) (hi : e2.id = i) :
    queryFirst c i (db.map (fun r => if r.cls = c ∧ r.id = i then e2 else r)) = some e2 := by
  induction db with
  | nil => exact Option.noConfusion h
  | cons x rest ih =>
    simp only [queryFirst, List.map_cons] at h ⊢
    by_cases hx : x.cls = c ∧ x.id = i
    · rw [if_pos hx, if_pos ⟨hc, hi⟩]
    · rw [if_neg hx] at h
      rw [if_neg hx, if_neg hx]
      exact ih h

theorem mem_map_update_of_not_key {db : List Entity} {r : Entity} (hm : r ∈ db)
    {c : EntityClass} {i : String} (e2 : Entity) (hr : ¬(r.cls = c ∧ r.id = i)) :
    r ∈ db.map (fun x => if x.cls = c ∧ x.id = i then e2 else x) := by
  have h := List.mem_map_of_mem (fun x => if x.cls = c ∧ x.id = i then e2 else x) hm
  have h2 : (if r.cls = c ∧ r.id = i then e2 else r) ∈
      db.map (fun x => if x.cls = c ∧ x.id = i then e2 else x) := h
  rwa [if_neg hr] at h2

theorem applyPendingAll_single (p : PendingOp) (db : List Entity) :
    applyPendingAll [p] db = applyPendingOp db p := by
  cases h : applyPendingOp db p <;> simp [applyPendingAll, h]

theorem sessionCommit_closeCount (s : SessionState) :
    (sessionCommit s).1.closeCount = s.closeCount := by
  cases h : applyPendingAll s.pending s.db <;> simp [sessionCommit, h]

theorem sessionCommit_pending (s : SessionState) : (sessionCommit s).1.pending = [] := by
  cases h : applyPendingAll s.pending s.db <;> simp [sessionCommit, h]

theorem sessionCommit_nil_pending {s : SessionState} (hp : s.pending = []) :
    sessionCommit s = ({ s with pending := [] }, none) := by
  simp [sessionCommit, hp, applyPendingAll]

/-! ## Shape of each repository operation's effect on the store -/

theorem add_fresh (s : SessionState) (e : Entity) (hp : s.pending = [])
    (hq : queryFirst e.cls e.id s.db = none) :
    (SQLAlchemyRepository.add s e).err = none ∧
    (SQLAlchemyRepository.add s e).state.db = s.db ++ [e] ∧
    (SQLAlchemyRepository.add s e).state.pending = [] := by
  refine ⟨?_, ?_, ?_⟩ <;>
    simp [SQLAlchemyRepository.add, hp, sessionCommit, applyPendingAll, applyPendingOp, hq]

theorem add_db_shape (s : SessionState) (e : Entity) (hp : s.pending = []) :
    (SQLAlchemyRepository.add s e).state.db = s.db ∨
    (SQLAlchemyRepository.add s e).state.db = s.db ++ [e] := by
  cases hq : queryFirst e.cls e.id s.db with
  | some x =>
    left
    simp [SQLAlchemyRepository.add, hp, sessionCommit, applyPendingAll, applyPendingOp, hq]
  | none =>
    right
    simp [SQLAlchemyRepository.add, hp, sessionCommit, applyPendingAll, applyPendingOp, hq]

theorem commit_updateRow_db_shape (s : SessionState) (c : EntityClass) (i : String)
    (e2 : Entity) (hp : s.pending = []) :
    (sessionCommit { s with pending := s.pending ++ [PendingOp.updateRow c i e2] }).1.db = s.db ∨
    (sessionCommit { s with pending := s.pending ++ [PendingOp.updateRow c i e2] }).1.db
      = s.db.map (fun r => if r.cls = c ∧ r.id = i then e2 else r) := by
  rw [hp]
  by_cases hk : e2.cls = c ∧ e2.id = i
  · right
    simp [sessionCommit, applyPendingAll, applyPendingOp, hk]
  · cases hq : queryFirst e2.cls e2.id s.db with
    | some x =>
      left
      simp [sessionCommit, applyPendingAll, applyPendingOp, hk, hq]
    | none =>
      right
      simp [sessionCommit, applyPendingAll, applyPendingOp, hk, hq]

theorem update_db_shape (s : SessionState) (c : EntityClass) (i : String)
    (kwargs : List (String × PyValue)) (hp : s.pending = []) :
    (SQLAlchemyRepository.update s c i kwargs).state.db = s.db ∨
    ∃ e2, (SQLAlchemyRepository.update s c i kwargs).state.db
        = s.db.map (fun r => if r.cls = c ∧ r.id = i then e2 else r) := by
  unfold SQLAlchemyRepository.update
  split
  · left; rfl
  · next e hg =>
    rcases commit_updateRow_db_shape s c i
        (kwargs.foldl (fun acc kv => acc.setattr kv.1 kv.2) e) hp with h | h
    · left; exact h
    · right; exact ⟨_, h⟩

theorem delete_db_shape (s : SessionState) (c : EntityClass) (i : String) (hp : s.pending = []) :
    (SQLAlchemyRepository.delete s c i).state.db = s.db ∨
    (SQLAlchemyRepository.delete s c i).state.db
      = s.db.filter (fun r => !(decide (r.cls = c ∧ r.id = i))) := by
  unfold SQLAlchemyRepository.delete
  split
  · left; rfl
  · right
    show (sessionCommit { s with pending := s.pending ++ [PendingOp.deleteRow c i] }).1.db = _
    rw [hp]
    simp [sessionCommit, applyPendingAll, applyPendingOp]

theorem delete_found (s : SessionState) (c : EntityClass) (i : String) {e : Entity}
    (hp : s.pending = []) (hg : SQLAlchemyRepository.get_by_id s c i = some e) :
    (SQLAlchemyRepository.delete s c i).err = none ∧
    (SQLAlchemyRepository.delete s c i).state.db
      = s.db.filter (fun r => !(decide (r.cls = c ∧ r.id = i))) := by
  unfold SQLAlchemyRepository.delete
  rw [hg]
  rw [hp]
  refine ⟨?_, ?_⟩ <;> simp [sessionCommit, applyPendingAll, applyPendingOp]

theorem update_entity_db_eq (s : SessionState) (c : EntityClass) (i : String)
    (kwargs : List (String × PyValue)) :
    (Repository.update_entity s c i kwargs).state.db = s.db := by
  unfold Repository.update_entity
  split
  · rfl
  · rfl

/-! ## Session-lifecycle invariants along any run of operations -/

theorem stepOp_closeCount (s : SessionState) (op : RepoOp) :
    (stepOp s op).state.closeCount = s.closeCount := by
  cases op with
  | add e =>
    show (sessionCommit _).1.closeCount = s.closeCount
    rw [sessionCommit_closeCount]
  | getById c i => rfl
  | update c i kwargs =>
    show (SQLAlchemyRepository.update s c i kwargs).state.closeCount = s.closeCount
    unfold SQLAlchemyRepository.update
    split
    · rfl
    · show (sessionCommit _).1.closeCount = s.closeCount
      rw [sessionCommit_closeCount]
  | delete c i =>
    show (SQLAlchemyRepository.delete s c i).state.closeCount = s.closeCount
    unfold SQLAlchemyRepository.delete
    split
    · rfl
    · show (sessionCommit _).1.closeCount = s.closeCount
      rw [sessionCommit_closeCount]
  | updateEntity c i kwargs =>
    show (Repository.update_entity s c i kwargs).state.closeCount = s.closeCount
    unfold Repository.update_entity
    split
    · rfl
    · rfl

theorem stepOp_pending_nil {s : SessionState} (hp : s.pending = []) (op : RepoOp)
    (he : (stepOp s op).err = none) : (stepOp s op).state.pending = [] := by
  cases op with
  | add e => exact sessionCommit_pending _
  | getById c i => exact hp
  | update c i kwargs =>
    revert he
    show (SQLAlchemyRepository.update s c i kwargs).err = none →
        (SQLAlchemyRepository.update s c i kwargs).state.pending = []
    unfold SQLAlchemyRepository.update
    split
    · intro _; exact hp
    · intro _; exact sessionCommit_pending _
  | delete c i =>
    revert he
    show (SQLAlchemyRepository.delete s c i).err = none →
        (SQLAlchemyRepository.delete s c i).state.pending = []
    unfold SQLAlchemyRepository.delete
    split
    · intro _; exact hp
    · intro _; exact sessionCommit_pending _
  | updateEntity c i kwargs =>
    revert he
    show (Repository.update_entity s c i kwargs).err = none →
        (Repository.update_entity s c i kwargs).state.pending = []
    unfold Repository.update_entity
    split
    · intro _; exact hp
    · intro he2
      simp [Entity.call_update_timestamp] at he2

theorem runOps_closeCount (ops : List RepoOp) (s : SessionState) :
    (runOps ops s).state.closeCount = s.closeCount := by
  induction ops generalizing s with
  | nil => rfl
  | cons op rest ih =>
    simp only [runOps]
    split
    · exact stepOp_closeCount s op
    · show (runOps rest (stepOp s op).state).state.closeCount = s.closeCount
      rw [ih, stepOp_closeCount]

theorem runOps_pending_nil (ops : List RepoOp) {s : SessionState} (hp : s.pending = [])
    (he : (runOps ops s).err = none) : (runOps ops s).state.pending = [] := by
  induction ops generalizing s with
  | nil => exact hp
  | cons op rest ih =>
    revert he
    simp only [runOps]
    split
    · intro he2; exact Option.noConfusion he2
    · next heq =>
      intro he2
      exact ih (stepOp_pending_nil hp op heq) he2

/-! ## Row preservation: operations that do not target a key keep its row -/

/-- Whether an operation addresses the row with the given class and id
(only `delete`/`update`/`update_entity` rewrite or remove an addressed
row; `add` never removes an existing row and a query changes nothing). -/
def RepoOp.targetsKey : RepoOp → EntityClass → String → Bool
  | .delete c i, c2, i2 => decide (c = c2) && decide (i = i2)
  | .update c i _, c2, i2 => decide (c = c2) && decide (i = i2)
  | .updateEntity c i _, c2, i2 => decide (c = c2) && decide (i = i2)
  | _, _, _ => false

theorem stepOp_preserves_mem {s : SessionState} {A : Entity} (hA : A ∈ s.db)
    (hp : s.pending = []) (op : RepoOp) (ht : op.targetsKey A.cls A.id = false) :
    A ∈ (stepOp s op).state.db := by
  cases op with
  | add e =>
    rcases add_db_shape s e hp with h | h
    · show A ∈ (SQLAlchemyRepository.add s e).state.db
      rw [h]; exact hA
    · show A ∈ (SQLAlchemyRepository.add s e).state.db
      rw [h]; exact List.mem_append_left _ hA
  | getById c i => exact hA
  | update c i kwargs =>
    have hne : ¬(A.cls = c ∧ A.id = i) := by
      intro hk
      simp [RepoOp.targetsKey, hk.1.symm, hk.2.symm] at ht
    rcases update_db_shape s c i kwargs hp with h | ⟨e2, h⟩
    · show A ∈ (SQLAlchemyRepository.update s c i kwargs).state.db
      rw [h]; exact hA
    · show A ∈ (SQLAlchemyRepository.update s c i kwargs).state.db
      rw [h]; exact mem_map_update_of_not_key hA e2 hne
  | delete c i =>
    have hne : ¬(A.cls = c ∧ A.id = i) := by
      intro hk
      simp [RepoOp.targetsKey, hk.1.symm, hk.2.symm] at ht
    rcases delete_db_shape s c i hp with h | h
    · show A ∈ (SQLAlchemyRepository.delete s c i).state.db
      rw [h]; exact hA
    · show A ∈ (SQLAlchemyRepository.delete s c i).state.db
      rw [h]
      exact List.mem_filter_of_mem hA (by simp [hne])
  | updateEntity c i kwargs =>
    show A ∈ (Repository.update_entity s c i kwargs).state.db
    rw [update_entity_db_eq]
    exact hA

theorem runOps_preserves_mem {s : SessionState} {A : Entity} (hA : A ∈ s.db)
    (hp : s.pending = []) (ops : List RepoOp)
    (ht : ∀ op ∈ ops, op.targetsKey A.cls A.id = false) :
    A ∈ (runOps ops s).state.db := by
  induction ops generalizing s with
  | nil => exact hA
  | cons op rest ih =>
    simp only [runOps]
    split
    · exact stepOp_preserves_mem hA hp op (ht op (List.mem_cons_self op rest))
    · next heq =>
      exact ih (stepOp_preserves_mem hA hp op (ht op (List.mem_cons_self op rest)))
        (stepOp_pending_nil hp op heq)
        (fun o ho => ht o (List.mem_cons_of_mem op ho))

/-- Whatever the outcome of the scope, the final committed store is the
store as left by the body: on success the closing commit has nothing
pending to flush (every repository operation already committed), and on
failure rollback/close only discard pending changes. -/
theorem session_scope_db_eq (db0 : List Entity) (ops : List RepoOp) :
    (session_scope db0 ops).state.db = (runOps ops (initSession db0)).state.db := by
  simp only [session_scope]
  split
  · next heq =>
    have hpend : (runOps ops (initSession db0)).state.pending = [] :=
      runOps_pending_nil ops rfl heq
    rw [sessionCommit_nil_pending hpend]
    rfl
  · next e heq =>
    by_cases hs : e.isSQLAlchemyError = true
    · simp [hs, sessionClose, sessionRollback]
    · simp [hs, sessionClose]

/-! ## Attribute-assignment lemmas -/

theorem Entity.setattr_cls (e : Entity) (k : String) (v : PyValue) :
    (e.setattr k v).cls = e.cls := by
  cases e <;> rfl

theorem foldl_setattr_cls (kwargs : List (String × PyValue)) (e : Entity) :
    (kwargs.foldl (fun acc kv => acc.setattr kv.1 kv.2) e).cls = e.cls := by
  induction kwargs generalizing e with
  | nil => rfl
  | cons kv rest ih => rw [List.foldl_cons, ih, Entity.setattr_cls]

theorem update_found (s : SessionState) (c : EntityClass) (i : String)
    (kwargs : List (String × PyValue)) (e : Entity) (hp : s.pending = [])
    (hg : SQLAlchemyRepository.get_by_id s c i = some e)
    (hkey : (kwargs.foldl (fun acc kv => acc.setattr kv.1 kv.2) e).cls = c ∧
            (kwargs.foldl (fun acc kv => acc.setattr kv.1 kv.2) e).id = i) :
    (SQLAlchemyRepository.update s c i kwargs).err = none ∧
    (SQLAlchemyRepository.update s c i kwargs).state.db
      = s.db.map (fun r => if r.cls = c ∧ r.id = i then
          (kwargs.foldl (fun acc kv => acc.setattr kv.1 kv.2) e) else r) ∧
    (SQLAlchemyRepository.update s c i kwargs).logs = [] := by
  unfold SQLAlchemyRepository.update
  rw [hg]
  refine ⟨?_, ?_, ?_⟩ <;>
    simp [sessionCommit, hp, applyPendingAll, applyPendingOp, hkey.1, hkey.2]

/-! ## Claim theorems -/

/-- C6: for every id (and class) with no matching row in the store,
`get_by_id` returns the explicit not-found result `none`; its total
`Option` type means absence can never raise. -/
theorem get_by_id_absent_returns_none (s : SessionState) (c : EntityClass) (i : String)
    (h : ∀ r ∈ s.db, ¬(r.cls = c ∧ r.id = i)) :
    SQLAlchemyRepository.get_by_id s c i = none :=
  (queryFirst_eq_none_iff c i s.db).mpr h

theorem get_by_id_absent_returns_none_witness :
    (∀ r ∈ (SessionState.mk [Entity.toy (Toy.mk "t1" "Chew Toy" "Rubber")] [] 0).db,
      ¬(r.cls = EntityClass.owner ∧ r.id = "o9")) ∧
    SQLAlchemyRepository.get_by_id
      (SessionState.mk [Entity.toy (Toy.mk "t1" "Chew Toy" "Rubber")] [] 0)
      EntityClass.owner "o9" = none :=
  ⟨by decide, get_by_id_absent_returns_none _ _ _ (by decide)⟩

/-- C4: for every valid entity `E` (its primary key not yet present),
`add(E)` raises nothing and a following `get_by_id(type(E), E.id)` in
the same scope returns a value equal to `E` on every field (equality of
the embedded records is field-wise equality). -/
theorem add_then_get_returns_entity (s : SessionState) (e : Entity) (hp : s.pending = [])
    (hq : SQLAlchemyRepository.get_by_id s e.cls e.id = none) :
    (SQLAlchemyRepository.add s e).err = none ∧
    SQLAlchemyRepository.get_by_id (SQLAlchemyRepository.add s e).state e.cls e.id = some e := by
  obtain ⟨he, hdb, -⟩ := add_fresh s e hp hq
  refine ⟨he, ?_⟩
  show queryFirst e.cls e.id (SQLAlchemyRepository.add s e).state.db = some e
  rw [hdb]
  exact queryFirst_append_singleton hq rfl rfl

theorem add_then_get_returns_entity_witness :
    ((SessionState.mk [] [] 0).pending = [] ∧
      SQLAlchemyRepository.get_by_id (SessionState.mk [] [] 0)
        (Entity.animal (Animal.mk "a1" "Baxter" 5 "t1" "o1")).cls
        (Entity.animal (Animal.mk "a1" "Baxter" 5 "t1" "o1")).id = none) ∧
    ((SQLAlchemyRepository.add (SessionState.mk [] [] 0)
        (Entity.animal (Animal.mk "a1" "Baxter" 5 "t1" "o1"))).err = none ∧
      SQLAlchemyRepository.get_by_id
        (SQLAlchemyRepository.add (SessionState.mk [] [] 0)
          (Entity.animal (Animal.mk "a1" "Baxter" 5 "t1" "o1"))).state
        (Entity.animal (Animal.mk "a1" "Baxter" 5 "t1" "o1")).cls
        (Entity.animal (Animal.mk "a1" "Baxter" 5 "t1" "o1")).id
        = some (Entity.animal (Animal.mk "a1" "Baxter" 5 "t1" "o1"))) :=
  ⟨⟨rfl, by decide⟩, add_then_get_returns_entity _ _ rfl (by decide)⟩

/-- C7: for every entity present in the store, `delete(entityType, id)`
raises nothing and a following `get_by_id(entityType, id)` on the same
id returns the not-found result `none`. -/
theorem delete_then_get_returns_none (s : SessionState) (c : EntityClass) (i : String)
    (e : Entity) (hp : s.pending = [])
    (hg : SQLAlchemyRepository.get_by_id s c i = some e) :
    (SQLAlchemyRepository.delete s c i).err = none ∧
    SQLAlchemyRepository.get_by_id (SQLAlchemyRepository.delete s c i).state c i = none := by
  obtain ⟨he, hdb⟩ := delete_found s c i hp hg
  refine ⟨he, ?_⟩
  show queryFirst c i (SQLAlchemyRepository.delete s c i).state.db = none
  rw [hdb]
  exact queryFirst_filter_not c i s.db

theorem delete_then_get_returns_none_witness :
    ((SessionState.mk [Entity.owner (Owner.mk "o1" "John Doe" "john@example.com")] [] 0).pending
        = [] ∧
      SQLAlchemyRepository.get_by_id
        (SessionState.mk [Entity.owner (Owner.mk "o1" "John Doe" "john@example.com")] [] 0)
        EntityClass.owner "o1"
        = some (Entity.owner (Owner.mk "o1" "John Doe" "john@example.com"))) ∧
    ((SQLAlchemyRepository.delete
        (SessionState.mk [Entity.owner (Owner.mk "o1" "John Doe" "john@example.com")] [] 0)
        EntityClass.owner "o1").err = none ∧
      SQLAlchemyRepository.get_by_id
        (SQLAlchemyRepository.delete
          (SessionState.mk [Entity.owner (Owner.mk "o1" "John Doe" "john@example.com")] [] 0)
          EntityClass.owner "o1").state EntityClass.owner "o1" = none) :=
  ⟨⟨rfl, by decide⟩,
    delete_then_get_returns_none _ _ _
      (Entity.owner (Owner.mk "o1" "John Doe" "john@example.com")) rfl (by decide)⟩

/-- C5 (counterexample): on an id absent from the store,
`SQLAlchemyRepository.update` prints nothing at all — the claim's
"reports the not-found condition by logging it" does not happen: the
log output of the call is empty (and the store is untouched and nothing
is raised). -/
theorem update_absent_logs_nothing :
    (SQLAlchemyRepository.update (SessionState.mk [] [] 0) EntityClass.toy "t9"
      [("name", PyValue.vstr "x")]).logs = [] ∧
    (SQLAlchemyRepository.update (SessionState.mk [] [] 0) EntityClass.toy "t9"
      [("name", PyValue.vstr "x")]).err = none ∧
    (SQLAlchemyRepository.update (SessionState.mk [] [] 0) EntityClass.toy "t9"
      [("name", PyValue.vstr "x")]).state = SessionState.mk [] [] 0 := by
  decide

/-- C5 (amended): for every id not present in the store, update performs
no mutation and raises nothing; `SQLAlchemyRepository.update` is a
silent no-op (it reports nothing), while the manager-class iteration's
`Repository.update_entity` is the variant that logs the not-found
message. -/
theorem update_absent_no_mutation (s : SessionState) (c : EntityClass) (i : String)
    (kwargs : List (String × PyValue))
    (hq : SQLAlchemyRepository.get_by_id s c i = none) :
    SQLAlchemyRepository.update s c i kwargs = OpOut.mk s [] none ∧
    Repository.update_entity s c i kwargs
      = OpOut.mk s ["Entity with id " ++ i ++ " not found."] none := by
  constructor
  · unfold SQLAlchemyRepository.update
    rw [hq]
  · unfold Repository.update_entity
    rw [hq]

theorem update_absent_no_mutation_witness :
    SQLAlchemyRepository.get_by_id (SessionState.mk [] [] 0) EntityClass.animal "a7" = none ∧
    (SQLAlchemyRepository.update (SessionState.mk [] [] 0) EntityClass.animal "a7"
        [("age", PyValue.vint 9)] = OpOut.mk (SessionState.mk [] [] 0) [] none ∧
      Repository.update_entity (SessionState.mk [] [] 0) EntityClass.animal "a7"
        [("age", PyValue.vint 9)]
        = OpOut.mk (SessionState.mk [] [] 0) ["Entity with id a7 not found."] none) := by
  refine ⟨by decide, ?_⟩
  have h := update_absent_no_mutation (SessionState.mk [] [] 0) EntityClass.animal "a7"
    [("age", PyValue.vint 9)] (by decide)
  exact h

/-- C10: in the manager-class iteration, for every entity present in
the store, `Repository.update_entity` raises `AttributeError` at the
`entity.update_timestamp()` call (the mapped models inherit only the
declarative `Base` and define no `update_timestamp`), so the following
`self.session.commit()` is never reached and the committed store is
unchanged. -/
theorem update_entity_raises (s : SessionState) (c : EntityClass) (i : String)
    (kwargs : List (String × PyValue)) (e : Entity)
    (hg : SQLAlchemyRepository.get_by_id s c i = some e) :
    (Repository.update_entity s c i kwargs).err
      = some (PyError.attributeError
          ("'" ++ c.className ++ "' object has no attribute 'update_timestamp'")) ∧
    (Repository.update_entity s c i kwargs).state.db = s.db := by
  refine ⟨?_, update_entity_db_eq s c i kwargs⟩
  unfold Repository.update_entity
  rw [hg]
  have hc : (kwargs.foldl (fun acc kv => acc.setattr kv.1 kv.2) e).cls = c := by
    rw [foldl_setattr_cls]
    exact (queryFirst_some_facts hg).1
  simp only [Entity.call_update_timestamp, hc]

theorem update_entity_raises_witness :
    SQLAlchemyRepository.get_by_id
        (SessionState.mk [Entity.toy (Toy.mk "t1" "Chew Toy" "Rubber")] [] 0)
        EntityClass.toy "t1" = some (Entity.toy (Toy.mk "t1" "Chew Toy" "Rubber")) ∧
    ((Repository.update_entity
        (SessionState.mk [Entity.toy (Toy.mk "t1" "Chew Toy" "Rubber")] [] 0)
        EntityClass.toy "t1" [("name", PyValue.vstr "Ball")]).err
      = some (PyError.attributeError
          ("'" ++ EntityClass.toy.className ++ "' object has no attribute 'update_timestamp'")) ∧
      (Repository.update_entity
        (SessionState.mk [Entity.toy (Toy.mk "t1" "Chew Toy" "Rubber")] [] 0)
        EntityClass.toy "t1" [("name", PyValue.vstr "Ball")]).state.db
        = (SessionState.mk [Entity.toy (Toy.mk "t1" "Chew Toy" "Rubber")] [] 0).db) :=
  ⟨by decide,
    update_entity_raises _ _ _ _ (Entity.toy (Toy.mk "t1" "Chew Toy" "Rubber")) (by decide)⟩

/-- C3 (counterexample): on an existing `Toy`, a single-field update
changes exactly that field and commits, but nothing advances any
updated-timestamp: the persisted `Toy` row has columns `id`, `name`,
`toy_type` only — there is no updated-timestamp attribute to advance,
and `SQLAlchemyRepository.update` contains no timestamp refresh.  The
stored row after the update is equal to the old one on every field
except the one named, with no timestamp anywhere. -/
theorem update_changes_field_no_timestamp :
    (SQLAlchemyRepository.update
      (SessionState.mk [Entity.toy (Toy.mk "t1" "Chew Toy" "Rubber")] [] 0)
      EntityClass.toy "t1" [("name", PyValue.vstr "Ball")]).state.db
      = [Entity.toy (Toy.mk "t1" "Ball" "Rubber")] ∧
    (SQLAlchemyRepository.update
      (SessionState.mk [Entity.toy (Toy.mk "t1" "Chew Toy" "Rubber")] [] 0)
      EntityClass.toy "t1" [("name", PyValue.vstr "Ball")]).err = none ∧
    Toy.columns = ["id", "name", "toy_type"] ∧
    "updated_at" ∉ Toy.columns ∧ "updated" ∉ Toy.columns := by
  decide

/-- C8: on every execution of the transactional scope — whatever the
body does and whether it completes normally or raises — the session is
closed exactly once: the close counter of the final state is `1` on
every exit path. -/
theorem scope_closes_exactly_once (db0 : List Entity) (ops : List RepoOp) :
    (session_scope db0 ops).state.closeCount = 1 := by
  have h0 : (runOps ops (initSession db0)).state.closeCount = 0 := by
    rw [runOps_closeCount]
    rfl
  simp only [session_scope]
  split
  · split
    · show (sessionClose _).closeCount = 1
      simp [sessionClose, sessionCommit_closeCount, h0]
    · show (sessionClose (sessionRollback _)).closeCount = 1
      simp [sessionClose, sessionRollback, sessionCommit_closeCount, h0]
  · split
    · show (sessionClose (sessionRollback _)).closeCount = 1
      simp [sessionClose, sessionRollback, h0]
    · show (sessionClose _).closeCount = 1
      simp [sessionClose, h0]

/-- C1 (counterexample): a duplicate-id `add` raised inside the scope is
surfaced to the caller as the ORIGINAL `SQLAlchemyError`, re-raised
unchanged by the bare `raise` — not as a `StorageError` wrapping the
underlying cause, a class that exists nowhere in the code. -/
theorem scope_failure_not_storage_error :
    (session_scope []
      [RepoOp.add (Entity.toy (Toy.mk "t1" "Chew Toy" "Rubber")),
       RepoOp.add (Entity.toy (Toy.mk "t1" "Ball" "Plush"))]).err
      = some (PyError.sqlAlchemyError "UNIQUE constraint failed: toys.id") ∧
    isStorageErrorOpt (session_scope []
      [RepoOp.add (Entity.toy (Toy.mk "t1" "Chew Toy" "Rubber")),
       RepoOp.add (Entity.toy (Toy.mk "t1" "Ball" "Plush"))]).err = false := by
  decide

/-- C1 (amended): when the body of the scope raises, the failure is
surfaced to the caller as the original exception, unchanged (no
`StorageError` wrapping exists in the code); the session is still
released exactly once; and when the failure is a `SQLAlchemyError` —
the only kind the `except` clause catches — the unit of work is
explicitly rolled back. -/
theorem scope_failure_reraises_original (db0 : List Entity) (ops : List RepoOp) (e : PyError)
    (h : (runOps ops (initSession db0)).err = some e) :
    (session_scope db0 ops).err = some e ∧
    (session_scope db0 ops).state.closeCount = 1 ∧
    (e.isSQLAlchemyError = true → (session_scope db0 ops).rolledBack = true) := by
  have h0 : (runOps ops (initSession db0)).state.closeCount = 0 := by
    rw [runOps_closeCount]
    rfl
  simp only [session_scope, h]
  by_cases hs : e.isSQLAlchemyError = true
  · simp [hs, sessionClose, sessionRollback, h0]
  · simp [hs, sessionClose, h0]

theorem scope_failure_reraises_original_witness :
    (runOps
      [RepoOp.add (Entity.owner (Owner.mk "o1" "John Doe" "john@example.com")),
       RepoOp.add (Entity.owner (Owner.mk "o1" "Jane Roe" "jane@example.com"))]
      (initSession [])).err
      = some (PyError.sqlAlchemyError "UNIQUE constraint failed: owners.id") ∧
    ((session_scope []
        [RepoOp.add (Entity.owner (Owner.mk "o1" "John Doe" "john@example.com")),
         RepoOp.add (Entity.owner (Owner.mk "o1" "Jane Roe" "jane@example.com"))]).err
      = some (PyError.sqlAlchemyError "UNIQUE constraint failed: owners.id") ∧
      (session_scope []
        [RepoOp.add (Entity.owner (Owner.mk "o1" "John Doe" "john@example.com")),
         RepoOp.add (Entity.owner (Owner.mk "o1" "Jane Roe" "jane@example.com"))]).state.closeCount
        = 1 ∧
      ((PyError.sqlAlchemyError "UNIQUE constraint failed: owners.id").isSQLAlchemyError = true →
        (session_scope []
          [RepoOp.add (Entity.owner (Owner.mk "o1" "John Doe" "john@example.com")),
           RepoOp.add (Entity.owner (Owner.mk "o1" "Jane Roe" "jane@example.com"))]).rolledBack
          = true)) :=
  ⟨by decide,
    scope_failure_reraises_original [] _
      (PyError.sqlAlchemyError "UNIQUE constraint failed: owners.id") (by decide)⟩

/-- C2: each `add` commits the unit of work at the time of the call
(the entity is in the committed store as soon as the `add` returns),
and a failure raised later in the same scope does not undo entities
persisted by earlier `add` calls: for any continuation of the scope
that raises and does not itself address the added row's key, the row is
still in the committed store when the scope exits. -/
theorem add_commits_immediately_and_survives (db0 : List Entity) (A : Entity)
    (rest : List RepoOp)
    (h1 : queryFirst A.cls A.id db0 = none)
    (h2 : ∀ op ∈ rest, op.targetsKey A.cls A.id = false)
    (h3 : (session_scope db0 (RepoOp.add A :: rest)).err.isSome = true) :
    A ∈ (stepOp (initSession db0) (RepoOp.add A)).state.db ∧
    A ∈ (session_scope db0 (RepoOp.add A :: rest)).state.db := by
  obtain ⟨he, hdb, hpend⟩ := add_fresh (initSession db0) A rfl h1
  have hmem : A ∈ (stepOp (initSession db0) (RepoOp.add A)).state.db := by
    show A ∈ (SQLAlchemyRepository.add (initSession db0) A).state.db
    rw [hdb]
    exact List.mem_append_right _ (List.mem_cons_self A [])
  refine ⟨hmem, ?_⟩
  rw [session_scope_db_eq]
  simp only [runOps, stepOp]
  rw [he]
  exact runOps_preserves_mem hmem hpend rest h2

theorem add_commits_immediately_and_survives_witness :
    queryFirst (Entity.toy (Toy.mk "t1" "Chew Toy" "Rubber")).cls
      (Entity.toy (Toy.mk "t1" "Chew Toy" "Rubber")).id [] = none ∧
    (∀ op ∈ [RepoOp.add (Entity.toy (Toy.mk "t1" "Wrong Dup" "Plush"))],
      op.targetsKey (Entity.toy (Toy.mk "t1" "Chew Toy" "Rubber")).cls
        (Entity.toy (Toy.mk "t1" "Chew Toy" "Rubber")).id = false) ∧
    (session_scope []
      (RepoOp.add (Entity.toy (Toy.mk "t1" "Chew Toy" "Rubber"))
        :: [RepoOp.add (Entity.toy (Toy.mk "t1" "Wrong Dup" "Plush"))])).err.isSome = true ∧
    (Entity.toy (Toy.mk "t1" "Chew Toy" "Rubber")
        ∈ (stepOp (initSession [])
          (RepoOp.add (Entity.toy (Toy.mk "t1" "Chew Toy" "Rubber")))).state.db ∧
      Entity.toy (Toy.mk "t1" "Chew Toy" "Rubber")
        ∈ (session_scope []
          (RepoOp.add (Entity.toy (Toy.mk "t1" "Chew Toy" "Rubber"))
            :: [RepoOp.add (Entity.toy (Toy.mk "t1" "Wrong Dup" "Plush"))])).state.db) :=
  ⟨by decide, by decide, by decide,
    add_commits_immediately_and_survives [] (Entity.toy (Toy.mk "t1" "Chew Toy" "Rubber"))
      [RepoOp.add (Entity.toy (Toy.mk "t1" "Wrong Dup" "Plush"))]
      (by decide) (by decide) (by decide)⟩

/-! ## Single-field updates across all model classes -/

theorem toy_setattr_id_of_ne (t : Toy) (f : String) (v : PyValue) (hf : f ≠ "id") :
    (t.setattr f v).id = t.id := by
  unfold Toy.setattr
  rw [if_neg hf]
  by_cases h2 : f = "name"
  · rw [if_pos h2]; cases v <;> rfl
  · rw [if_neg h2]
    by_cases h3 : f = "toy_type"
    · rw [if_pos h3]; cases v <;> rfl
    · rw [if_neg h3]

theorem owner_setattr_id_of_ne (o : Owner) (f : String) (v : PyValue) (hf : f ≠ "id") :
    (o.setattr f v).id = o.id := by
  unfold Owner.setattr
  rw [if_neg hf]
  by_cases h2 : f = "name"
  · rw [if_pos h2]; cases v <;> rfl
  · rw [if_neg h2]
    by_cases h3 : f = "contact_info"
    · rw [if_pos h3]; cases v <;> rfl
    · rw [if_neg h3]

theorem animal_setattr_id_of_ne (a : Animal) (f : String) (v : PyValue) (hf : f ≠ "id") :
    (a.setattr f v).id = a.id := by
  unfold Animal.setattr
  rw [if_neg hf]
  by_cases h2 : f = "name"
  · rw [if_pos h2]; cases v <;> rfl
  · rw [if_neg h2]
    by_cases h3 : f = "age"
    · rw [if_pos h3]; cases v <;> rfl
    · rw [if_neg h3]
      by_cases h4 : f = "favorite_toy_id"
      · rw [if_pos h4]; cases v <;> rfl
      · rw [if_neg h4]
        by_cases h5 : f = "owner_id"
        · rw [if_pos h5]; cases v <;> rfl
        · rw [if_neg h5]

theorem toy_getattr_setattr_same (t : Toy) (f : String) (v w : PyValue)
    (hcol : t.getattr f = some w) (hkind : w.sameKind v = true) :
    (t.setattr f v).getattr f = some v := by
  unfold Toy.getattr at hcol
  by_cases h1 : f = "id"
  · subst h1
    rw [if_pos rfl] at hcol
    injection hcol with hcol
    subst hcol
    cases v with
    | vstr s => simp [Toy.setattr, Toy.getattr]
    | vint n => simp [PyValue.sameKind] at hkind
  · rw [if_neg h1] at hcol
    by_cases h2 : f = "name"
    · subst h2
      rw [if_pos rfl] at hcol
      injection hcol with hcol
      subst hcol
      cases v with
      | vstr s => simp [Toy.setattr, Toy.getattr]
      | vint n => simp [PyValue.sameKind] at hkind
    · rw [if_neg h2] at hcol
      by_cases h3 : f = "toy_type"
      · subst h3
        rw [if_pos rfl] at hcol
        injection hcol with hcol
        subst hcol
        cases v with
        | vstr s => simp [Toy.setattr, Toy.getattr]
        | vint n => simp [PyValue.sameKind] at hkind
      · rw [if_neg h3] at hcol
        exact Option.noConfusion hcol

theorem owner_getattr_setattr_same (o : Owner) (f : String) (v w : PyValue)
    (hcol : o.getattr f = some w) (hkind : w.sameKind v = true) :
    (o.setattr f v).getattr f = some v := by
  unfold Owner.getattr at hcol
  by_cases h1 : f = "id"
  · subst h1
    rw [if_pos rfl] at hcol
    injection hcol with hcol
    subst hcol
    cases v with
    | vstr s => simp [Owner.setattr, Owner.getattr]
    | vint n => simp [PyValue.sameKind] at hkind
  · rw [if_neg h1] at hcol
    by_cases h2 : f = "name"
    · subst h2
      rw [if_pos rfl] at hcol
      injection hcol with hcol
      subst hcol
      cases v with
      | vstr s => simp [Owner.setattr, Owner.getattr]
      | vint n => simp [PyValue.sameKind] at hkind
    · rw [if_neg h2] at hcol
      by_cases h3 : f = "contact_info"
      · subst h3
        rw [if_pos rfl] at hcol
        injection hcol with hcol
        subst hcol
        cases v with
        | vstr s => simp [Owner.setattr, Owner.getattr]
        | vint n => simp [PyValue.sameKind] at hkind
      · rw [if_neg h3] at hcol
        exact Option.noConfusion hcol

theorem animal_getattr_setattr_same (a : Animal) (f : String) (v w : PyValue)
    (hcol : a.getattr f = some w) (hkind : w.sameKind v = true) :
    (a.setattr f v).getattr f = some v := by
  unfold Animal.getattr at hcol
  by_cases h1 : f = "id"
  · subst h1
    rw [if_pos rfl] at hcol
    injection hcol with hcol
    subst hcol
    cases v with
    | vstr s => simp [Animal.setattr, Animal.getattr]
    | vint n => simp [PyValue.sameKind] at hkind
  · rw [if_neg h1] at hcol
    by_cases h2 : f = "name"
    · subst h2
      rw [if_pos rfl] at hcol
      injection hcol with hcol
      subst hcol
      cases v with
      | vstr s => simp [Animal.setattr, Animal.getattr]
      | vint n => simp [PyValue.sameKind] at hkind
    · rw [if_neg h2] at hcol
      by_cases h3 : f = "age"
      · subst h3
        rw [if_pos rfl] at hcol
        injection hcol with hcol
        subst hcol
        cases v with
        | vstr s => simp [PyValue.sameKind] at hkind
        | vint n => simp [Animal.setattr, Animal.getattr]
      · rw [if_neg h3] at hcol
        by_cases h4 : f = "favorite_toy_id"
        · subst h4
          rw [if_pos rfl] at hcol
          injection hcol with hcol
          subst hcol
          cases v with
          | vstr s => simp [Animal.setattr, Animal.getattr]
          | vint n => simp [PyValue.sameKind] at hkind
        · rw [if_neg h4] at hcol
          by_cases h5 : f = "owner_id"
          · subst h5
            rw [if_pos rfl] at hcol
            injection hcol with hcol
            subst hcol
            cases v with
            | vstr s => simp [Animal.setattr, Animal.getattr]
            | vint n => simp [PyValue.sameKind] at hkind
          · rw [if_neg h5] at hcol
            exact Option.noConfusion hcol

theorem toy_getattr_setattr_ne (t : Toy) (f g : String) (v : PyValue) (hne : g ≠ f) :
    (t.setattr f v).getattr g = t.getattr g := by
  by_cases h1 : f = "id"
  · subst h1
    cases v with
    | vstr s => simp [Toy.setattr, Toy.getattr, hne]
    | vint n => simp [Toy.setattr]
  · by_cases h2 : f = "name"
    · subst h2
      cases v with
      | vstr s => simp [Toy.setattr, Toy.getattr, hne]
      | vint n => simp [Toy.setattr]
    · by_cases h3 : f = "toy_type"
      · subst h3
        cases v with
        | vstr s => simp [Toy.setattr, Toy.getattr, hne]
        | vint n => simp [Toy.setattr]
      · simp [Toy.setattr, h1, h2, h3]

theorem owner_getattr_setattr_ne (o : Owner) (f g : String) (v : PyValue) (hne : g ≠ f) :
    (o.setattr f v).getattr g = o.getattr g := by
  by_cases h1 : f = "id"
  · subst h1
    cases v with
    | vstr s => simp [Owner.setattr, Owner.getattr, hne]
    | vint n => simp [Owner.setattr]
  · by_cases h2 : f = "name"
    · subst h2
      cases v with
      | vstr s => simp [Owner.setattr, Owner.getattr, hne]
      | vint n => simp [Owner.setattr]
    · by_cases h3 : f = "contact_info"
      · subst h3
        cases v with
        | vstr s => simp [Owner.setattr, Owner.getattr, hne]
        | vint n => simp [Owner.setattr]
      · simp [Owner.setattr, h1, h2, h3]

theorem animal_getattr_setattr_ne (a : Animal) (f g : String) (v : PyValue) (hne : g ≠ f) :
    (a.setattr f v).getattr g = a.getattr g := by
  by_cases h1 : f = "id"
  · subst h1
    cases v with
    | vstr s => simp [Animal.setattr, Animal.getattr, hne]
    | vint n => simp [Animal.setattr]
  · by_cases h2 : f = "name"
    · subst h2
      cases v with
      | vstr s => simp [Animal.setattr, Animal.getattr, hne]
      | vint n => simp [Animal.setattr]
    · by_cases h3 : f = "age"
      · subst h3
        cases v with
        | vstr s => simp [Animal.setattr]
        | vint n => simp [Animal.setattr, Animal.getattr, hne]
      · by_cases h4 : f = "favorite_toy_id"
        · subst h4
          cases v with
          | vstr s => simp [Animal.setattr, Animal.getattr, hne]
          | vint n => simp [Animal.setattr]
        · by_cases h5 : f = "owner_id"
          · subst h5
            cases v with
            | vstr s => simp [Animal.setattr, Animal.getattr, hne]
            | vint n => simp [Animal.setattr]
          · simp [Animal.setattr, h1, h2, h3, h4, h5]

theorem Entity.setattr_id_of_ne (e : Entity) (f : String) (v : PyValue) (hf : f ≠ "id") :
    (e.setattr f v).id = e.id := by
  cases e with
  | toy t => exact toy_setattr_id_of_ne t f v hf
  | owner o => exact owner_setattr_id_of_ne o f v hf
  | animal a => exact animal_setattr_id_of_ne a f v hf

theorem Entity.getattr_setattr_same (e : Entity) (f : String) (v w : PyValue)
    (hcol : e.getattr f = some w) (hkind : w.sameKind v = true) :
    (e.setattr f v).getattr f = some v := by
  cases e with
  | toy t => exact toy_getattr_setattr_same t f v w hcol hkind
  | owner o => exact owner_getattr_setattr_same o f v w hcol hkind
  | animal a => exact animal_getattr_setattr_same a f v w hcol hkind

theorem Entity.getattr_setattr_ne (e : Entity) (f g : String) (v : PyValue) (hne : g ≠ f) :
    (e.setattr f v).getattr g = e.getattr g := by
  cases e with
  | toy t => exact toy_getattr_setattr_ne t f g v hne
  | owner o => exact owner_getattr_setattr_ne o f g v hne
  | animal a => exact animal_getattr_setattr_ne a f g v hne

/-- C3 (amended): for every entity type, every entity present in the
store, and every single-field change `{f: v}` where `f` is a declared
non-key column of that type and `v` is of that column's kind, `update`
changes exactly that field of the stored entity (`getattr f` now reads
`v`), leaves every other field and every other row unchanged, and
commits (raising nothing); and no updated-timestamp is advanced — no
persisted model has any `updated_at` attribute to advance, and `update`
performs no timestamp refresh. -/
theorem update_single_field_exact (s : SessionState) (c : EntityClass) (i : String)
    (e : Entity) (f : String) (v w : PyValue) (hp : s.pending = [])
    (hg : SQLAlchemyRepository.get_by_id s c i = some e)
    (hf : f ≠ "id") (hcol : e.getattr f = some w) (hkind : w.sameKind v = true) :
    (SQLAlchemyRepository.update s c i [(f, v)]).err = none ∧
    SQLAlchemyRepository.get_by_id (SQLAlchemyRepository.update s c i [(f, v)]).state c i
      = some (e.setattr f v) ∧
    (e.setattr f v).getattr f = some v ∧
    (∀ g, g ≠ f → (e.setattr f v).getattr g = e.getattr g) ∧
    (∀ r ∈ s.db, ¬(r.cls = c ∧ r.id = i) →
      r ∈ (SQLAlchemyRepository.update s c i [(f, v)]).state.db) ∧
    (∀ x : Entity, x.getattr "updated_at" = none) := by
  have hcls : e.cls = c := (queryFirst_some_facts hg).1
  have hid : e.id = i := (queryFirst_some_facts hg).2.1
  have hkey : (([(f, v)] : List (String × PyValue)).foldl
        (fun acc kv => acc.setattr kv.1 kv.2) e).cls = c ∧
      (([(f, v)] : List (String × PyValue)).foldl
        (fun acc kv => acc.setattr kv.1 kv.2) e).id = i := by
    constructor
    · show (e.setattr f v).cls = c
      rw [Entity.setattr_cls, hcls]
    · show (e.setattr f v).id = i
      rw [Entity.setattr_id_of_ne e f v hf, hid]
  obtain ⟨he, hdb, -⟩ := update_found s c i [(f, v)] e hp hg hkey
  refine ⟨he, ?_, Entity.getattr_setattr_same e f v w hcol hkind,
    fun g hgne => Entity.getattr_setattr_ne e f g v hgne, ?_, ?_⟩
  · show queryFirst c i (SQLAlchemyRepository.update s c i [(f, v)]).state.db = _
    rw [hdb]
    exact queryFirst_map_update hg _ hkey.1 hkey.2
  · intro r hr hne
    rw [hdb]
    exact mem_map_update_of_not_key hr _ hne
  · intro x
    cases x <;> rfl

theorem update_single_field_exact_witness :
    ((SessionState.mk [Entity.animal (Animal.mk "a1" "Baxter" 5 "t1" "o1")] [] 0).pending
        = [] ∧
      SQLAlchemyRepository.get_by_id
        (SessionState.mk [Entity.animal (Animal.mk "a1" "Baxter" 5 "t1" "o1")] [] 0)
        EntityClass.animal "a1" = some (Entity.animal (Animal.mk "a1" "Baxter" 5 "t1" "o1")) ∧
      "age" ≠ "id" ∧
      (Entity.animal (Animal.mk "a1" "Baxter" 5 "t1" "o1")).getattr "age"
        = some (PyValue.vint 5) ∧
      (PyValue.vint 5).sameKind (PyValue.vint 6) = true) ∧
    ((SQLAlchemyRepository.update
        (SessionState.mk [Entity.animal (Animal.mk "a1" "Baxter" 5 "t1" "o1")] [] 0)
        EntityClass.animal "a1" [("age", PyValue.vint 6)]).err = none ∧
      SQLAlchemyRepository.get_by_id
        (SQLAlchemyRepository.update
          (SessionState.mk [Entity.animal (Animal.mk "a1" "Baxter" 5 "t1" "o1")] [] 0)
          EntityClass.animal "a1" [("age", PyValue.vint 6)]).state EntityClass.animal "a1"
        = some ((Entity.animal (Animal.mk "a1" "Baxter" 5 "t1" "o1")).setattr "age"
            (PyValue.vint 6)) ∧
      ((Entity.animal (Animal.mk "a1" "Baxter" 5 "t1" "o1")).setattr "age"
          (PyValue.vint 6)).getattr "age" = some (PyValue.vint 6) ∧
      (∀ g, g ≠ "age" →
        ((Entity.animal (Animal.mk "a1" "Baxter" 5 "t1" "o1")).setattr "age"
            (PyValue.vint 6)).getattr g
          = (Entity.animal (Animal.mk "a1" "Baxter" 5 "t1" "o1")).getattr g) ∧
      (∀ r ∈ (SessionState.mk [Entity.animal (Animal.mk "a1" "Baxter" 5 "t1" "o1")] [] 0).db,
        ¬(r.cls = EntityClass.animal ∧ r.id = "a1") →
        r ∈ (SQLAlchemyRepository.update
          (SessionState.mk [Entity.animal (Animal.mk "a1" "Baxter" 5 "t1" "o1")] [] 0)
          EntityClass.animal "a1" [("age", PyValue.vint 6)]).state.db) ∧
      (∀ x : Entity, x.getattr "updated_at" = none)) :=
  ⟨⟨rfl, by decide, by decide, by decide, by decide⟩,
    update_single_field_exact
      (SessionState.mk [Entity.animal (Animal.mk "a1" "Baxter" 5 "t1" "o1")] [] 0)
      EntityClass.animal "a1" (Entity.animal (Animal.mk "a1" "Baxter" 5 "t1" "o1"))
      "age" (PyValue.vint 6) (PyValue.vint 5)
      rfl (by decide) (by decide) (by decide) (by decide)⟩
